import Mathlib

/-
Verification development for the Clawd4Dummies scan pipeline.

The development shallowly embeds, in Lean, the pieces of the repository the
claims are about:
  * the canonical TypeScript data model (types/finding.ts, types/scan.ts);
  * the result normalizer (normalizeScanResult and its helpers);
  * the finding ordering utilities of the GUI (findingUtils.ts) and the
    ordering of the friendly findings view (UserFindingsDisplay);
  * the Electron main-process input validation and scanner-process state
    (electron/main.cjs);
  * the CVSS-like risk scoring (calculate_risk from the implementation plan,
    with the list-level aggregation modelled from the spec, since
    risk_engine.py itself is not among the repository files provided).

JavaScript/Python decimal numbers are modelled as rationals, strings as Lean
strings handled at the level of their character lists (all the relevant
string work is ASCII), and optional/absent JSON fields as Option values.
-/

set_option maxRecDepth 4000

/-! ## Enumerations (types/finding.ts, types/scan.ts) -/

/-- Severity of one finding: a strictly ordered five-way enumeration. -/
inductive Severity
  | CRITICAL
  | HIGH
  | MEDIUM
  | LOW
  | INFO
deriving DecidableEq, Fintype

/-- Category of one finding; a fixed six-way enumeration. -/
inductive Category
  | PORT_EXPOSURE
  | AUTHENTICATION
  | CREDENTIALS
  | CONFIGURATION
  | PERMISSIONS
  | NETWORK
deriving DecidableEq, Fintype

/-- Aggregate risk level of one scan: a different enumeration from Severity
(SAFE instead of INFO). -/
inductive RiskLevel
  | CRITICAL
  | HIGH
  | MEDIUM
  | LOW
  | SAFE
deriving DecidableEq, Fintype

/-! ## Canonical data model (types/finding.ts, types/scan.ts) -/

/-- Canonical remediation step. -/
structure RemediationStep where
  step : Nat
  instruction : String
  code : Option String
  filePath : Option String
deriving DecidableEq

/-- Canonical finding record. -/
structure Finding where
  id : String
  title : String
  description : String
  severity : Severity
  category : Category
  cvssScore : ℚ
  location : Option String
  remediation : String
  remediationSteps : List RemediationStep
  references : List String
deriving DecidableEq

/-- Canonical host snapshot. -/
structure SystemInfo where
  platform : String
  platformDisplay : String
  pythonVersion : String
  username : String
  isAdmin : Bool
  localIps : List String
deriving DecidableEq

/-- Canonical aggregate result of one scan. -/
structure ScanResult where
  scanId : String
  timestamp : String
  durationSeconds : ℚ
  findings : List Finding
  systemInfo : SystemInfo
  overallRiskScore : ℚ
  riskLevel : RiskLevel
  criticalCount : Nat
  highCount : Nat
  mediumCount : Nat
  lowCount : Nat
  infoCount : Nat
deriving DecidableEq

/-! ## String helpers

JavaScript string operations used by the sources, modelled over the
character list of a Lean string (the data involved is ASCII). -/

/-- Model of the JavaScript toUpperCase call. -/
def upStr (s : String) : String :=
  String.mk (s.data.map Char.toUpper)

/-- Model of the JavaScript toLowerCase call. -/
def lowStr (s : String) : String :=
  String.mk (s.data.map Char.toLower)

/-- Whether the pattern is an initial run of the list. -/
def startsWithL : List Char → List Char → Bool
  | _, [] => true
  | [], _ :: _ => false
  | c :: cs, p :: ps => c = p && startsWithL cs ps

/-- Whether the pattern occurs anywhere in the list. -/
def hasSubstrL : List Char → List Char → Bool
  | [], pat => pat.isEmpty
  | l@(_ :: rest), pat => startsWithL l pat || hasSubstrL rest pat

/-- Model of the JavaScript includes call on strings. -/
def strIncludes (s pat : String) : Bool :=
  hasSubstrL s.data pat.data

/-- Index of the first occurrence of a colon immediately followed by a space,
modelling indexOf applied to the two-character pattern ": ". -/
def colonSpaceIdx : List Char → Option Nat
  | ':' :: ' ' :: _ => some 0
  | _ :: rest => (colonSpaceIdx rest).map (· + 1)
  | [] => none

/-- Both-ends whitespace removal on a character list, modelling the
JavaScript trim call. -/
def trimL (l : List Char) : List Char :=
  ((l.dropWhile Char.isWhitespace).reverse.dropWhile Char.isWhitespace).reverse

/-- Model of the JavaScript nullish-coalescing operator on optional values:
the left value when present, otherwise the right. -/
def coalesce {α : Type} (a b : Option α) : Option α :=
  match a with
  | some x => some x
  | none => b

/-! ## Raw (wire) shapes accepted by the normalizer (normalizeScanResult.ts) -/

/-- Raw remediation step object: both the snake_case and the camelCase file
path key may be present. -/
structure RawRemediationStep where
  step : Option Nat
  instruction : Option String
  code : Option String
  file_path : Option String
  filePath : Option String
deriving DecidableEq

/-- A raw remediation step is either a plain string (Python backend) or a
structured object (demo mode). -/
inductive RawStep
  | str (s : String)
  | obj (o : RawRemediationStep)
deriving DecidableEq

/-- Raw finding as read off the wire: every field optional, with snake_case
and camelCase variants where the two producers differ. -/
structure RawFinding where
  id : Option String
  title : Option String
  description : Option String
  severity : Option String
  category : Option String
  cvss_score : Option ℚ
  location : Option String
  remediation : Option String
  remediation_steps : Option (List RawStep)
  references : Option (List String)
  reference_links : Option (List String)
  cvssScore : Option ℚ
  remediationSteps : Option (List RawStep)
deriving DecidableEq

/-- Raw system info: snake_case keys from the Python backend plus camelCase
variants. -/
structure RawSystemInfo where
  platform : Option String
  platform_display : Option String
  python_version : Option String
  username : Option String
  is_admin : Option Bool
  local_ips : Option (List String)
  platformDisplay : Option String
  pythonVersion : Option String
  isAdmin : Option Bool
  localIps : Option (List String)
deriving DecidableEq

/-- Raw per-severity counts nested under the summary key (Python backend). -/
structure RawSummary where
  critical_count : Option Nat
  high_count : Option Nat
  medium_count : Option Nat
  low_count : Option Nat
  info_count : Option Nat
deriving DecidableEq

/-- Raw scan result: the snake_case fields produced by the Python backend and
the camelCase fields produced by the in-process demo path. The camelCase
systemInfo carries the canonical shape, exactly as in the TypeScript
declaration. -/
structure RawScanResult where
  scan_id : Option String
  timestamp : Option String
  duration_seconds : Option ℚ
  findings : Option (List RawFinding)
  system_info : Option RawSystemInfo
  overall_risk_score : Option ℚ
  risk_level : Option String
  summary : Option RawSummary
  scanId : Option String
  durationSeconds : Option ℚ
  systemInfo : Option SystemInfo
  overallRiskScore : Option ℚ
  riskLevel : Option String
  criticalCount : Option Nat
  highCount : Option Nat
  mediumCount : Option Nat
  lowCount : Option Nat
  infoCount : Option Nat
deriving DecidableEq

/-! ## The normalizer (src/unnamed/part_009) -/

/-- One raw remediation step normalized at a given zero-based position.
A plain string with a colon-space at character index below 50 is split there
into instruction and command (the command trimmed, and omitted when it trims
to nothing); any other string is kept whole as the instruction; an object
step keeps its own fields, defaulting the step number to position plus one
and the instruction to the empty string, and reading the file path from the
snake_case key first. -/
def normalizeOneStep (index : Nat) : RawStep → RemediationStep
  | RawStep.str s =>
    match colonSpaceIdx s.data with
    | some colonIndex =>
      if colonIndex < 50 then
        let code := trimL (s.data.drop (colonIndex + 2))
        { step := index + 1
          instruction := String.mk (s.data.take colonIndex)
          code := if 0 < code.length then some (String.mk code) else none
          filePath := none }
      else
        { step := index + 1, instruction := s, code := none, filePath := none }
    | none =>
      { step := index + 1, instruction := s, code := none, filePath := none }
  | RawStep.obj o =>
    { step := o.step.getD (index + 1)
      instruction := o.instruction.getD ""
      code := o.code
      filePath := coalesce o.file_path o.filePath }

/-- The indexed map underlying normalizeRemediationSteps. -/
def normStepsGo (index : Nat) : List RawStep → List RemediationStep
  | [] => []
  | s :: rest => normalizeOneStep index s :: normStepsGo (index + 1) rest

/-- normalizeRemediationSteps: map each raw step through normalizeOneStep
with its zero-based position. -/
def normalizeRemediationSteps (rawSteps : List RawStep) : List RemediationStep :=
  normStepsGo 0 rawSteps

/-- normalizeSeverity: an absent or empty string is INFO; otherwise the
uppercased string is matched against the five severity names, any other
string falling back to INFO. -/
def normalizeSeverity : Option String → Severity
  | none => Severity.INFO
  | some s =>
    if s = "" then Severity.INFO
    else
      let n := upStr s
      if n = "CRITICAL" then Severity.CRITICAL
      else if n = "HIGH" then Severity.HIGH
      else if n = "MEDIUM" then Severity.MEDIUM
      else if n = "LOW" then Severity.LOW
      else if n = "INFO" then Severity.INFO
      else Severity.INFO

/-- normalizeCategory: an absent or empty string is CONFIGURATION; otherwise
the uppercased string is matched against the six category names, any other
string falling back to CONFIGURATION. -/
def normalizeCategory : Option String → Category
  | none => Category.CONFIGURATION
  | some s =>
    if s = "" then Category.CONFIGURATION
    else
      let n := upStr s
      if n = "PORT_EXPOSURE" then Category.PORT_EXPOSURE
      else if n = "AUTHENTICATION" then Category.AUTHENTICATION
      else if n = "CREDENTIALS" then Category.CREDENTIALS
      else if n = "CONFIGURATION" then Category.CONFIGURATION
      else if n = "PERMISSIONS" then Category.PERMISSIONS
      else if n = "NETWORK" then Category.NETWORK
      else Category.CONFIGURATION

/-- normalizeRiskLevelString (part_009): the uppercased string matched
against the five risk level names, any other string falling back to SAFE. -/
def normalizeRiskLevelString (level : String) : RiskLevel :=
  let n := upStr level
  if n = "CRITICAL" then RiskLevel.CRITICAL
  else if n = "HIGH" then RiskLevel.HIGH
  else if n = "MEDIUM" then RiskLevel.MEDIUM
  else if n = "LOW" then RiskLevel.LOW
  else if n = "SAFE" then RiskLevel.SAFE
  else RiskLevel.SAFE

/-- normalizeRiskLevel (part_008, types/scan.ts): an absent or empty string
is SAFE; otherwise as normalizeRiskLevelString. -/
def normalizeRiskLevel : Option String → RiskLevel
  | none => RiskLevel.SAFE
  | some s => if s = "" then RiskLevel.SAFE else normalizeRiskLevelString s

/-- Normalization of one raw finding (the map body inside
normalizeScanResult). -/
def normalizeFinding (f : RawFinding) : Finding :=
  { id := f.id.getD "unknown"
    title := f.title.getD "Unknown Finding"
    description := f.description.getD ""
    severity := normalizeSeverity f.severity
    category := normalizeCategory f.category
    cvssScore := (coalesce f.cvss_score f.cvssScore).getD 0
    location := f.location
    remediation := f.remediation.getD ""
    remediationSteps :=
      normalizeRemediationSteps ((coalesce f.remediation_steps f.remediationSteps).getD [])
    references := (coalesce f.references f.reference_links).getD [] }

/-- normalizeScanResult: translate a raw result into the canonical
ScanResult, preferring snake_case keys and falling back to camelCase keys
and then to documented defaults. The impure default for a missing timestamp
(the current time rendered as an ISO string) is passed in as the parameter
now. -/
def normalizeScanResult (now : String) (raw : RawScanResult) : ScanResult :=
  let systemInfo : SystemInfo :=
    { platform :=
        (coalesce (raw.system_info.bind (·.platform))
          (raw.systemInfo.map (·.platform))).getD "unknown"
      platformDisplay :=
        (coalesce (raw.system_info.bind (·.platform_display))
          (coalesce (raw.system_info.bind (·.platformDisplay))
            (raw.systemInfo.map (·.platformDisplay)))).getD "Unknown Platform"
      pythonVersion :=
        (coalesce (raw.system_info.bind (·.python_version))
          (coalesce (raw.system_info.bind (·.pythonVersion))
            (raw.systemInfo.map (·.pythonVersion)))).getD "N/A"
      username :=
        (coalesce (raw.system_info.bind (·.username))
          (raw.systemInfo.map (·.username))).getD "unknown"
      isAdmin :=
        (coalesce (raw.system_info.bind (·.is_admin))
          (coalesce (raw.system_info.bind (·.isAdmin))
            (raw.systemInfo.map (·.isAdmin)))).getD false
      localIps :=
        (coalesce (raw.system_info.bind (·.local_ips))
          (coalesce (raw.system_info.bind (·.localIps))
            (raw.systemInfo.map (·.localIps)))).getD [] }
  { scanId := (coalesce raw.scan_id raw.scanId).getD "unknown"
    timestamp := raw.timestamp.getD now
    durationSeconds := (coalesce raw.duration_seconds raw.durationSeconds).getD 0
    findings := (raw.findings.getD []).map normalizeFinding
    systemInfo := systemInfo
    overallRiskScore := (coalesce raw.overall_risk_score raw.overallRiskScore).getD 0
    riskLevel := normalizeRiskLevelString ((coalesce raw.risk_level raw.riskLevel).getD "safe")
    criticalCount := (coalesce (raw.summary.bind (·.critical_count)) raw.criticalCount).getD 0
    highCount := (coalesce (raw.summary.bind (·.high_count)) raw.highCount).getD 0
    mediumCount := (coalesce (raw.summary.bind (·.medium_count)) raw.mediumCount).getD 0
    lowCount := (coalesce (raw.summary.bind (·.low_count)) raw.lowCount).getD 0
    infoCount := (coalesce (raw.summary.bind (·.info_count)) raw.infoCount).getD 0 }

/-! ## Finding utilities (src/utils/findingUtils.ts) -/

/-- The reserved id of the priority install advisory. -/
def PRIORITY_FINDING_ID : String := "CLAWD-INSTALL-001"

/-- SEVERITY_PRIORITY: the sort rank of each severity, CRITICAL first. -/
def severityRank : Severity → Nat
  | Severity.CRITICAL => 0
  | Severity.HIGH => 1
  | Severity.MEDIUM => 2
  | Severity.LOW => 3
  | Severity.INFO => 4

/-- isPriorityFinding: the reserved id, or a lowercased title containing
"not installed" or "not configured". -/
def isPriorityFinding (f : Finding) : Bool :=
  f.id == PRIORITY_FINDING_ID
    || strIncludes (lowStr f.title) "not installed"
    || strIncludes (lowStr f.title) "not configured"

/-- The order the developer-view comparator induces: compare the severity
ranks (the JavaScript comparator subtracts them). -/
def devSortRel (a b : Finding) : Prop :=
  severityRank a.severity ≤ severityRank b.severity

instance : DecidableRel devSortRel :=
  fun a b => inferInstanceAs (Decidable (severityRank a.severity ≤ severityRank b.severity))

instance : IsTotal Finding devSortRel :=
  ⟨fun a b => Nat.le_total (severityRank a.severity) (severityRank b.severity)⟩

instance : IsTrans Finding devSortRel :=
  ⟨fun _ _ _ h1 h2 => Nat.le_trans h1 h2⟩

/-- sortFindingsForDevView: priority findings first in their original order,
then the remaining findings sorted by severity rank. The JavaScript sort
call is stable, so it is modelled by a stable sort. -/
def sortFindingsForDevView (findings : List Finding) : List Finding :=
  let priority := findings.filter isPriorityFinding
  let regular := findings.filter fun f => !isPriorityFinding f
  let sortedRegular := List.insertionSort devSortRel regular
  priority ++ sortedRegular

/-- The severity display order of the views. -/
def SEVERITY_ORDER : List Severity :=
  [Severity.CRITICAL, Severity.HIGH, Severity.MEDIUM, Severity.LOW, Severity.INFO]

/-- The display order of the friendly view (UserFindingsDisplay, with the
filter set to ALL): the priority findings first as alert blocks, then each
severity group in display order with priority findings filtered out. -/
def friendlyViewOrder (findings : List Finding) : List Finding :=
  findings.filter isPriorityFinding
    ++ (SEVERITY_ORDER.map fun sev =>
        (findings.filter fun f => f.severity == sev).filter
          fun f => !isPriorityFinding f).flatten

/-- Number of findings carrying a given severity (the tally the spec says
each severity count must equal). -/
def countSeverity (fs : List Finding) (sev : Severity) : Nat :=
  (fs.filter fun f => f.severity == sev).length

/-! ## Electron main process (electron/main.cjs) -/

/-- The whitelist of module ids. -/
def ALLOWED_MODULES : List String :=
  ["port", "credential", "config", "process", "permission", "network", "clawdbot"]

/-- Characters the module sanitizer keeps (the regex class [a-z0-9_]). -/
def isModuleChar (c : Char) : Bool :=
  c.isLower || c.isDigit || c = '_'

/-- The sanitization applied to one module id before the whitelist check:
lowercase, then drop every character outside [a-z0-9_]. -/
def sanitizeModule (m : String) : String :=
  String.mk ((lowStr m).data.filter isModuleChar)

/-- The validation loop of validateModules: sanitize each id and reject at
the first sanitized id outside the whitelist. Non-array and non-string
inputs are rejected even earlier by dynamic type checks, which typing the
input as a list of strings models away. -/
def validateModulesGo : List String → Except String (List String)
  | [] => Except.ok []
  | m :: rest =>
    let sanitized := sanitizeModule m
    if ALLOWED_MODULES.contains sanitized then
      match validateModulesGo rest with
      | Except.ok v => Except.ok (sanitized :: v)
      | Except.error e => Except.error e
    else
      Except.error ("Invalid module: " ++ sanitized)

/-- validateModules: run the loop, then reject an empty validated list. -/
def validateModules (modules : List String) : Except String (List String) :=
  match validateModulesGo modules with
  | Except.error e => Except.error e
  | Except.ok validated =>
    if validated.length = 0 then Except.error "At least one valid module is required"
    else Except.ok validated

/-- The mutable scanner-process state of the main process: the single
pythonProcess variable, the set of scanner processes actually alive (as a
list of process identities), and a counter minting fresh identities. -/
structure MainState where
  nextPid : Nat
  pythonProcess : Option Nat
  running : List Nat
deriving DecidableEq

/-- The state at startup: no scanner process. -/
def initMainState : MainState :=
  { nextPid := 0, pythonProcess := none, running := [] }

/-- The requests and process events the scanner state reacts to. -/
inductive ScanEvent
  | start (modules : List String)
  | cancel
  | procClose (p : Nat)

/-- One step of the scanner-process state.
start: validation failure leaves the state unchanged (the handler throws
before spawning); otherwise a fresh process is spawned and the
pythonProcess variable is overwritten with it — the handler neither rejects
the request nor kills a process already running.
cancel: when the pythonProcess variable holds a process, that process is
killed and the variable cleared; otherwise nothing happens.
procClose: the exiting process is gone and its close handler sets the
pythonProcess variable to null unconditionally. -/
def stepScanner (s : MainState) : ScanEvent → MainState
  | ScanEvent.start modules =>
    match validateModules modules with
    | Except.error _ => s
    | Except.ok _ =>
      { nextPid := s.nextPid + 1
        pythonProcess := some s.nextPid
        running := s.nextPid :: s.running }
  | ScanEvent.cancel =>
    match s.pythonProcess with
    | some p => { s with pythonProcess := none, running := s.running.erase p }
    | none => s
  | ScanEvent.procClose p =>
    { s with running := s.running.erase p, pythonProcess := none }

/-- The scanner state after a sequence of events from startup. -/
def runScanner (events : List ScanEvent) : MainState :=
  events.foldl stepScanner initMainState

/-- Characters removed wholesale from an export filename (the regex class
containing angle brackets, colon, double quote, pipe, question mark,
asterisk, backslash and slash). -/
def isReservedChar (c : Char) : Bool :=
  c = '<' || c = '>' || c = ':' || c = '"' || c = '|' || c = '?' || c = '*'
    || c = '\\' || c = '/'

/-- Global removal of the two-character sequence dot-dot, left to right and
non-overlapping, as the JavaScript global regex replace does. -/
def removeDotDot : List Char → List Char
  | '.' :: '.' :: rest => removeDotDot rest
  | c :: rest => c :: removeDotDot rest
  | [] => []

/-- Removal of a leading drive-letter-and-colon pair (the anchored regex). -/
def stripDriveL : List Char → List Char
  | c :: ':' :: rest => if c.isAlpha then rest else c :: ':' :: rest
  | l => l

/-- Removal of one leading slash (the anchored regex). -/
def stripLeadSlash : List Char → List Char
  | '/' :: rest => rest
  | l => l

/-- The filename sanitization of validateExportOptions: remove dot-dot
pairs, then the reserved characters, then a leading drive prefix, then a
leading slash; cap the length at 255; fall back to report.html when the
result is empty or whitespace. -/
def sanitizeExportFilename (filename : String) : String :=
  let s1 := removeDotDot filename.data
  let s2 := s1.filter fun c => !isReservedChar c
  let s3 := stripDriveL s2
  let s4 := stripLeadSlash s3
  let s5 := s4.take 255
  if s5.isEmpty || (trimL s5).isEmpty then "report.html" else String.mk s5

/-- validateExportOptions restricted to its filename field: a missing or
non-string filename falls back to report.html, a string one is sanitized. -/
def validateExportFilename : Option String → String
  | none => "report.html"
  | some f => sanitizeExportFilename f

/-! ## Risk engine (scoring algorithm of the implementation plan, part_000) -/

/-- The fields of a backend finding the scoring algorithm reads. -/
structure PyFinding where
  cvss_score : ℚ
  is_publicly_exposed : Bool
  requires_no_auth : Bool
deriving DecidableEq

/-- Python min on rationals. -/
def pymin (a b : ℚ) : ℚ := if a ≤ b then a else b

/-- Python max on rationals. -/
def pymax (a b : ℚ) : ℚ := if a ≤ b then b else a

/-- calculate_risk, from the scoring algorithm block of the implementation
plan: the cvss score, boosted by 12/10 when publicly exposed and by a
further 11/10 when exploitable without authentication, capped at 10. -/
def calculate_risk (finding : PyFinding) : ℚ :=
  let base_score := finding.cvss_score
  let base_score := if finding.is_publicly_exposed then base_score * (12 / 10) else base_score
  let base_score := if finding.requires_no_auth then base_score * (11 / 10) else base_score
  pymin base_score 10

/-- Maximum of a starting value and a list of rationals. -/
def maxThrough (x : ℚ) (xs : List ℚ) : ℚ :=
  xs.foldl pymax x

/-- Modelled from the spec: the list-level Risk Engine score. The module
clawd_for_dummies/risk_engine.py is not among the repository files
provided, so the aggregation follows the spec (section 4.2) over the
per-finding calculate_risk of the implementation plan: an empty findings
list scores 0; otherwise the maximum per-finding risk, clamped to the
closed interval from 0 to 10. -/
def overallRiskScore : List PyFinding → ℚ
  | [] => 0
  | f :: fs =>
    pymax 0 (pymin (maxThrough (calculate_risk f) (fs.map calculate_risk)) 10)

/-- Modelled from the spec: the fixed risk-level thresholds of section 4.2. -/
def riskLevelOfScore (score : ℚ) : RiskLevel :=
  if 9 ≤ score then RiskLevel.CRITICAL
  else if 7 ≤ score then RiskLevel.HIGH
  else if 4 ≤ score then RiskLevel.MEDIUM
  else if 0 < score then RiskLevel.LOW
  else RiskLevel.SAFE

/-- Modelled from the spec: the Risk Engine as a pure function from a
findings list to the pair of overall score and risk level. -/
def riskEngine (findings : List PyFinding) : ℚ × RiskLevel :=
  let score := overallRiskScore findings
  (score, riskLevelOfScore score)

/-- The per-finding adjusted score exactly as the claim words it: the cvss
score multiplied by 12/10 when flagged publicly exposed and further by
11/10 when no authentication is required (no per-finding cap). -/
def claimAdjusted (f : PyFinding) : ℚ :=
  f.cvss_score * (if f.is_publicly_exposed then 12 / 10 else 1)
    * (if f.requires_no_auth then 11 / 10 else 1)

/-! ## Encoders of one canonical result into the two wire conventions

These two definitions follow the words of the round-trip sentence of the
spec: the same scan result content written once with the primary
(snake_case) field names and once with the alternate (camelCase) field
names. They exist to be compared through the normalizer. -/

/-- One canonical step written as a snake_case wire object. -/
def stepToSnake (st : RemediationStep) : RawStep :=
  RawStep.obj
    { step := some st.step
      instruction := some st.instruction
      code := st.code
      file_path := st.filePath
      filePath := none }

/-- One canonical step written as a camelCase wire object. -/
def stepToCamel (st : RemediationStep) : RawStep :=
  RawStep.obj
    { step := some st.step
      instruction := some st.instruction
      code := st.code
      file_path := none
      filePath := st.filePath }

/-- The wire name of a severity. -/
def severityName : Severity → String
  | Severity.CRITICAL => "CRITICAL"
  | Severity.HIGH => "HIGH"
  | Severity.MEDIUM => "MEDIUM"
  | Severity.LOW => "LOW"
  | Severity.INFO => "INFO"

/-- The wire name of a category. -/
def categoryName : Category → String
  | Category.PORT_EXPOSURE => "PORT_EXPOSURE"
  | Category.AUTHENTICATION => "AUTHENTICATION"
  | Category.CREDENTIALS => "CREDENTIALS"
  | Category.CONFIGURATION => "CONFIGURATION"
  | Category.PERMISSIONS => "PERMISSIONS"
  | Category.NETWORK => "NETWORK"

/-- The wire name of a risk level. -/
def riskLevelName : RiskLevel → String
  | RiskLevel.CRITICAL => "CRITICAL"
  | RiskLevel.HIGH => "HIGH"
  | RiskLevel.MEDIUM => "MEDIUM"
  | RiskLevel.LOW => "LOW"
  | RiskLevel.SAFE => "SAFE"

/-- One canonical finding written with the snake_case keys. -/
def findingToSnake (f : Finding) : RawFinding :=
  { id := some f.id
    title := some f.title
    description := some f.description
    severity := some (severityName f.severity)
    category := some (categoryName f.category)
    cvss_score := some f.cvssScore
    location := f.location
    remediation := some f.remediation
    remediation_steps := some (f.remediationSteps.map stepToSnake)
    references := some f.references
    reference_links := none
    cvssScore := none
    remediationSteps := none }

/-- One canonical finding written with the camelCase keys. -/
def findingToCamel (f : Finding) : RawFinding :=
  { id := some f.id
    title := some f.title
    description := some f.description
    severity := some (severityName f.severity)
    category := some (categoryName f.category)
    cvss_score := none
    location := f.location
    remediation := some f.remediation
    remediation_steps := none
    references := some f.references
    reference_links := none
    cvssScore := some f.cvssScore
    remediationSteps := some (f.remediationSteps.map stepToCamel) }

/-- The canonical host snapshot written with the snake_case keys. -/
def sysToSnake (si : SystemInfo) : RawSystemInfo :=
  { platform := some si.platform
    platform_display := some si.platformDisplay
    python_version := some si.pythonVersion
    username := some si.username
    is_admin := some si.isAdmin
    local_ips := some si.localIps
    platformDisplay := none
    pythonVersion := none
    isAdmin := none
    localIps := none }

/-- One canonical scan result written entirely in the primary (snake_case)
convention, counts nested under summary. -/
def toSnakeRaw (v : ScanResult) : RawScanResult :=
  { scan_id := some v.scanId
    timestamp := some v.timestamp
    duration_seconds := some v.durationSeconds
    findings := some (v.findings.map findingToSnake)
    system_info := some (sysToSnake v.systemInfo)
    overall_risk_score := some v.overallRiskScore
    risk_level := some (riskLevelName v.riskLevel)
    summary := some
      { critical_count := some v.criticalCount
        high_count := some v.highCount
        medium_count := some v.mediumCount
        low_count := some v.lowCount
        info_count := some v.infoCount }
    scanId := none
    durationSeconds := none
    systemInfo := none
    overallRiskScore := none
    riskLevel := none
    criticalCount := none
    highCount := none
    mediumCount := none
    lowCount := none
    infoCount := none }

/-- One canonical scan result written entirely in the alternate (camelCase)
convention, counts as direct fields. -/
def toCamelRaw (v : ScanResult) : RawScanResult :=
  { scan_id := none
    timestamp := some v.timestamp
    duration_seconds := none
    findings := some (v.findings.map findingToCamel)
    system_info := none
    overall_risk_score := none
    risk_level := none
    summary := none
    scanId := some v.scanId
    durationSeconds := some v.durationSeconds
    systemInfo := some v.systemInfo
    overallRiskScore := some v.overallRiskScore
    riskLevel := some (riskLevelName v.riskLevel)
    criticalCount := some v.criticalCount
    highCount := some v.highCount
    mediumCount := some v.mediumCount
    lowCount := some v.lowCount
    infoCount := some v.infoCount }

/-! ## Concrete values used by witnesses and counterexamples -/

/-- A raw scan result with every field absent. -/
def rawEmpty : RawScanResult :=
  { scan_id := none, timestamp := none, duration_seconds := none, findings := none
    system_info := none, overall_risk_score := none, risk_level := none, summary := none
    scanId := none, durationSeconds := none, systemInfo := none, overallRiskScore := none
    riskLevel := none, criticalCount := none, highCount := none, mediumCount := none
    lowCount := none, infoCount := none }

/-- A raw finding with every field absent. -/
def rawFindingEmpty : RawFinding :=
  { id := none, title := none, description := none, severity := none, category := none
    cvss_score := none, location := none, remediation := none, remediation_steps := none
    references := none, reference_links := none, cvssScore := none, remediationSteps := none }

/-- A raw scan result carrying one finding and no severity counts. -/
def rawOneFinding : RawScanResult :=
  { rawEmpty with findings := some [rawFindingEmpty] }

/-- A concrete finding carrying the reserved priority id. -/
def sampleInstall : Finding :=
  { id := "CLAWD-INSTALL-001"
    title := "Moltbot Not Installed"
    description := ""
    severity := Severity.INFO
    category := Category.CONFIGURATION
    cvssScore := 0
    location := none
    remediation := ""
    remediationSteps := []
    references := [] }

/-- A concrete finding whose title carries the phrase "not configured" but
whose id is an ordinary one. -/
def sampleNotConfigured : Finding :=
  { id := "PORT-001"
    title := "Gateway service not configured"
    description := ""
    severity := Severity.HIGH
    category := Category.CONFIGURATION
    cvssScore := 7
    location := none
    remediation := ""
    remediationSteps := []
    references := [] }

/-! ## Helper lemmas -/

@[simp]
theorem coalesce_some {α : Type} (x : α) (b : Option α) : coalesce (some x) b = some x := rfl

@[simp]
theorem coalesce_none {α : Type} (b : Option α) : coalesce none b = b := rfl

@[simp]
theorem coalesce_none_right {α : Type} (a : Option α) : coalesce a none = a := by
  cases a <;> rfl

theorem pymin_eq_min (a b : ℚ) : pymin a b = min a b := by
  rw [pymin, min_def]

theorem pymax_eq_max (a b : ℚ) : pymax a b = max a b := by
  rw [pymax, max_def]

theorem pymin_pymax (a b c : ℚ) : pymin (pymax a b) c = pymax (pymin a c) (pymin b c) := by
  rw [pymin_eq_min, pymax_eq_max, pymax_eq_max, pymin_eq_min, pymin_eq_min,
    min_max_distrib_right]

theorem pymin_pymin (a b : ℚ) : pymin (pymin a b) b = pymin a b := by
  simp only [pymin_eq_min]
  rw [min_assoc, min_self]

theorem calculate_risk_eq (f : PyFinding) : calculate_risk f = pymin (claimAdjusted f) 10 := by
  obtain ⟨c, e, a⟩ := f
  cases e <;> cases a <;> simp [calculate_risk, claimAdjusted, mul_one, mul_assoc]

theorem pymin_maxThrough (xs : List ℚ) (x : ℚ) :
    pymin (maxThrough x xs) 10
      = maxThrough (pymin x 10) (xs.map fun y => pymin y 10) := by
  induction xs generalizing x with
  | nil => rfl
  | cons y ys ih =>
    rw [maxThrough, List.foldl_cons, List.map_cons, maxThrough, List.foldl_cons,
      ← maxThrough, ← maxThrough, ih, pymin_pymax]

theorem overallRiskScore_bounds (l : List PyFinding) :
    0 ≤ overallRiskScore l ∧ overallRiskScore l ≤ 10 := by
  cases l with
  | nil => exact ⟨le_refl 0, by norm_num [overallRiskScore]⟩
  | cons f fs =>
    rw [overallRiskScore, pymax_eq_max, pymin_eq_min]
    exact ⟨le_max_left 0 _, max_le (by norm_num) (min_le_right _ 10)⟩

theorem riskLevelOfScore_spec (s : ℚ) :
    (9 ≤ s → riskLevelOfScore s = RiskLevel.CRITICAL)
    ∧ (7 ≤ s → s < 9 → riskLevelOfScore s = RiskLevel.HIGH)
    ∧ (4 ≤ s → s < 7 → riskLevelOfScore s = RiskLevel.MEDIUM)
    ∧ (0 < s → s < 4 → riskLevelOfScore s = RiskLevel.LOW)
    ∧ (s = 0 → riskLevelOfScore s = RiskLevel.SAFE) := by
  unfold riskLevelOfScore
  refine ⟨?_, ?_, ?_, ?_, ?_⟩ <;> intros <;> split_ifs <;> first | rfl | (exfalso; linarith)

/-! ## Claim theorems -/

/-- C1: the Risk Engine is a pure function from findings to a score and
level such that the empty list yields score 0 and level SAFE; a non-empty
list yields the maximum over the findings of the cvss score multiplied by
12/10 when flagged publicly exposed and further by 11/10 when no
authentication is required, clamped to the closed interval from 0 to 10;
the level follows the fixed thresholds (at least 9 CRITICAL, at least 7
HIGH, at least 4 MEDIUM, above 0 LOW, exactly 0 SAFE); and the single
finding with score 8 and both flags yields score 10 and level CRITICAL. -/
theorem risk_engine_contract :
    riskEngine [] = (0, RiskLevel.SAFE)
    ∧ (∀ (f : PyFinding) (fs : List PyFinding),
        (riskEngine (f :: fs)).1
          = pymax 0 (pymin (maxThrough (claimAdjusted f) (fs.map claimAdjusted)) 10))
    ∧ (∀ l : List PyFinding, 0 ≤ (riskEngine l).1 ∧ (riskEngine l).1 ≤ 10)
    ∧ (∀ l : List PyFinding,
        (9 ≤ (riskEngine l).1 → (riskEngine l).2 = RiskLevel.CRITICAL)
        ∧ (7 ≤ (riskEngine l).1 → (riskEngine l).1 < 9 → (riskEngine l).2 = RiskLevel.HIGH)
        ∧ (4 ≤ (riskEngine l).1 → (riskEngine l).1 < 7 → (riskEngine l).2 = RiskLevel.MEDIUM)
        ∧ (0 < (riskEngine l).1 → (riskEngine l).1 < 4 → (riskEngine l).2 = RiskLevel.LOW)
        ∧ ((riskEngine l).1 = 0 → (riskEngine l).2 = RiskLevel.SAFE))
    ∧ riskEngine [{ cvss_score := 8, is_publicly_exposed := true, requires_no_auth := true }]
        = (10, RiskLevel.CRITICAL) := by
  refine ⟨rfl, ?_, ?_, ?_, ?_⟩
  · intro f fs
    show overallRiskScore (f :: fs) = _
    rw [overallRiskScore]
    congr 1
    have hmap : fs.map calculate_risk
        = (fs.map claimAdjusted).map fun y => pymin y 10 := by
      rw [List.map_map]
      exact List.map_congr_left fun g _ => calculate_risk_eq g
    rw [calculate_risk_eq, hmap, ← pymin_maxThrough, pymin_pymin]
  · intro l
    exact overallRiskScore_bounds l
  · intro l
    exact riskLevelOfScore_spec (overallRiskScore l)
  · have hscore : overallRiskScore
        [{ cvss_score := 8, is_publicly_exposed := true, requires_no_auth := true }] = 10 := by
      rw [overallRiskScore]
      norm_num [maxThrough, calculate_risk, pymin, pymax]
    rw [riskEngine]
    rw [hscore]
    norm_num [riskLevelOfScore]

/-- C5: evaluation of the scanner-process state at the failing trace. A
second start request while the first scanner process is still running
spawns a second process without rejecting the request or killing the first:
after two starts both processes 0 and 1 are running. A cancel then kills
only the most recent process, and a further cancel does nothing, so the
first process can never be cancelled through the handler. -/
theorem double_start_two_processes :
    (runScanner [ScanEvent.start ["port"], ScanEvent.start ["port"]]).running = [1, 0]
    ∧ (runScanner [ScanEvent.start ["port"], ScanEvent.start ["port"],
        ScanEvent.cancel]).running = [0]
    ∧ (runScanner [ScanEvent.start ["port"], ScanEvent.start ["port"],
        ScanEvent.cancel, ScanEvent.cancel]).running = [0] := by
  decide

/-- C6 counterexample: the id "PORT!" is outside the whitelist, yet
validateModules accepts the list containing it, silently coercing it to
"port". -/
theorem module_id_coerced_cx :
    ALLOWED_MODULES.contains "PORT!" = false
    ∧ validateModules ["PORT!"] = Except.ok ["port"] := by
  exact ⟨by decide, rfl⟩

theorem validateModulesGo_error (modules : List String) (m : String)
    (hm : m ∈ modules) (hbad : ALLOWED_MODULES.contains (sanitizeModule m) = false) :
    ∃ e, validateModulesGo modules = Except.error e := by
  induction modules with
  | nil => cases hm
  | cons m0 rest ih =>
    simp only [validateModulesGo]
    by_cases h0 : ALLOWED_MODULES.contains (sanitizeModule m0) = true
    · rw [if_pos h0]
      rcases List.mem_cons.mp hm with rfl | hm2
      · rw [h0] at hbad
        cases hbad
      · obtain ⟨e, he⟩ := ih hm2
        rw [he]
        exact ⟨e, rfl⟩
    · rw [if_neg h0]
      exact ⟨_, rfl⟩

theorem validateModulesGo_ok (modules : List String) (v : List String)
    (h : validateModulesGo modules = Except.ok v) :
    ∀ x ∈ v, ALLOWED_MODULES.contains x = true := by
  induction modules generalizing v with
  | nil =>
    simp only [validateModulesGo] at h
    cases h
    intro x hx
    cases hx
  | cons m0 rest ih =>
    simp only [validateModulesGo] at h
    by_cases h0 : ALLOWED_MODULES.contains (sanitizeModule m0) = true
    · rw [if_pos h0] at h
      cases hrest : validateModulesGo rest with
      | ok v0 =>
        rw [hrest] at h
        cases h
        intro x hx
        rcases List.mem_cons.mp hx with rfl | hx2
        · exact h0
        · exact ih v0 hrest x hx2
      | error e =>
        rw [hrest] at h
        cases h
    · rw [if_neg h0] at h
      cases h

/-- C6 (amended): a submitted id is first sanitized (lowercased, characters
outside the class of lowercase letters, digits and underscore removed); if
any submitted id sanitizes to something outside the whitelist, validation
fails with a descriptive error and the start handler spawns no scanner
process; every id a successful validation returns is in the whitelist; but
an id outside the whitelist whose sanitized form is inside it is silently
coerced rather than rejected. -/
theorem invalid_module_rejected :
    (∀ (modules : List String) (m : String), m ∈ modules →
      ALLOWED_MODULES.contains (sanitizeModule m) = false →
      ∃ e, validateModules modules = Except.error e)
    ∧ (∀ (s : MainState) (modules : List String) (e : String),
        validateModules modules = Except.error e →
        stepScanner s (ScanEvent.start modules) = s)
    ∧ (∀ (modules : List String) (v : List String),
        validateModules modules = Except.ok v →
        ∀ x ∈ v, ALLOWED_MODULES.contains x = true) := by
  refine ⟨?_, ?_, ?_⟩
  · intro modules m hm hbad
    obtain ⟨e, he⟩ := validateModulesGo_error modules m hm hbad
    refine ⟨e, ?_⟩
    rw [validateModules, he]
  · intro s modules e he
    simp only [stepScanner, he]
  · intro modules v hv
    rw [validateModules] at hv
    cases hgo : validateModulesGo modules with
    | error e =>
      rw [hgo] at hv
      cases hv
    | ok v0 =>
      rw [hgo] at hv
      dsimp only at hv
      by_cases hlen : v0.length = 0
      · rw [if_pos hlen] at hv
        cases hv
      · rw [if_neg hlen] at hv
        cases hv
        exact validateModulesGo_ok modules _ hgo

/-- C7: evaluation of the export filename sanitizer. The two example inputs
of the claim behave as the claim says, but the input dot-pipe-dot defeats
the sanitizer: removing the reserved pipe character joins the two dots into
a dot-dot, so the sanitizer returns a path-traversal component even though
the dot-dot removal documented in the code already ran. -/
theorem filename_sanitizer_dotdot :
    sanitizeExportFilename ".|." = ".."
    ∧ sanitizeExportFilename "../../etc/passwd" = "etcpasswd"
    ∧ sanitizeExportFilename "C:\\evil.html" = "Cevil.html"
    ∧ validateExportFilename (some ".|.") = ".." := by
  decide

theorem severityName_ne_empty (sev : Severity) : severityName sev ≠ "" := by
  cases sev <;> decide

theorem categoryName_ne_empty (c : Category) : categoryName c ≠ "" := by
  cases c <;> decide

theorem riskLevelName_ne_empty (r : RiskLevel) : riskLevelName r ≠ "" := by
  cases r <;> decide

/-- C8: severity, category and risk-level normalization matches the input
case-insensitively (through uppercasing) against the fixed enumerations,
returning the matched member, and maps an absent value or any string whose
uppercasing matches no member to the safe default (INFO, CONFIGURATION,
SAFE) — the normalizers are total functions, so one bad field never fails
the whole scan result. -/
theorem enum_normalization_defaults :
    (normalizeSeverity none = Severity.INFO)
    ∧ (∀ (s : String) (sev : Severity), upStr s = severityName sev →
        normalizeSeverity (some s) = sev)
    ∧ (∀ s : String, (∀ sev : Severity, upStr s ≠ severityName sev) →
        normalizeSeverity (some s) = Severity.INFO)
    ∧ (normalizeCategory none = Category.CONFIGURATION)
    ∧ (∀ (s : String) (c : Category), upStr s = categoryName c →
        normalizeCategory (some s) = c)
    ∧ (∀ s : String, (∀ c : Category, upStr s ≠ categoryName c) →
        normalizeCategory (some s) = Category.CONFIGURATION)
    ∧ (∀ (s : String) (r : RiskLevel), upStr s = riskLevelName r →
        normalizeRiskLevelString s = r)
    ∧ (∀ s : String, (∀ r : RiskLevel, upStr s ≠ riskLevelName r) →
        normalizeRiskLevelString s = RiskLevel.SAFE)
    ∧ (normalizeRiskLevel none = RiskLevel.SAFE)
    ∧ (∀ (s : String) (r : RiskLevel), upStr s = riskLevelName r →
        normalizeRiskLevel (some s) = r)
    ∧ (∀ s : String, (∀ r : RiskLevel, upStr s ≠ riskLevelName r) →
        normalizeRiskLevel (some s) = RiskLevel.SAFE) := by
  have hsevm : ∀ (s : String) (sev : Severity), upStr s = severityName sev →
      normalizeSeverity (some s) = sev := by
    intro s sev h
    have hs : s ≠ "" := by
      intro h0
      rw [h0] at h
      rw [show upStr "" = "" from rfl] at h
      exact severityName_ne_empty sev h.symm
    cases sev <;>
      · simp only [normalizeSeverity]
        rw [if_neg hs, h]
        decide
  have hcatm : ∀ (s : String) (c : Category), upStr s = categoryName c →
      normalizeCategory (some s) = c := by
    intro s c h
    have hs : s ≠ "" := by
      intro h0
      rw [h0] at h
      rw [show upStr "" = "" from rfl] at h
      exact categoryName_ne_empty c h.symm
    cases c <;>
      · simp only [normalizeCategory]
        rw [if_neg hs, h]
        decide
  have hrlsm : ∀ (s : String) (r : RiskLevel), upStr s = riskLevelName r →
      normalizeRiskLevelString s = r := by
    intro s r h
    cases r <;>
      · simp only [normalizeRiskLevelString]
        rw [h]
        decide
  have hrlsd : ∀ s : String, (∀ r : RiskLevel, upStr s ≠ riskLevelName r) →
      normalizeRiskLevelString s = RiskLevel.SAFE := by
    intro s hall
    have h1 : upStr s ≠ "CRITICAL" := hall RiskLevel.CRITICAL
    have h2 : upStr s ≠ "HIGH" := hall RiskLevel.HIGH
    have h3 : upStr s ≠ "MEDIUM" := hall RiskLevel.MEDIUM
    have h4 : upStr s ≠ "LOW" := hall RiskLevel.LOW
    have h5 : upStr s ≠ "SAFE" := hall RiskLevel.SAFE
    simp only [normalizeRiskLevelString]
    rw [if_neg h1, if_neg h2, if_neg h3, if_neg h4, if_neg h5]
  refine ⟨rfl, hsevm, ?_, rfl, hcatm, ?_, hrlsm, hrlsd, rfl, ?_, ?_⟩
  · intro s hall
    by_cases hs : s = ""
    · simp only [normalizeSeverity]
      rw [if_pos hs]
    · have h1 : upStr s ≠ "CRITICAL" := hall Severity.CRITICAL
      have h2 : upStr s ≠ "HIGH" := hall Severity.HIGH
      have h3 : upStr s ≠ "MEDIUM" := hall Severity.MEDIUM
      have h4 : upStr s ≠ "LOW" := hall Severity.LOW
      have h5 : upStr s ≠ "INFO" := hall Severity.INFO
      simp only [normalizeSeverity]
      rw [if_neg hs, if_neg h1, if_neg h2, if_neg h3, if_neg h4, if_neg h5]
  · intro s hall
    by_cases hs : s = ""
    · simp only [normalizeCategory]
      rw [if_pos hs]
    · have h1 : upStr s ≠ "PORT_EXPOSURE" := hall Category.PORT_EXPOSURE
      have h2 : upStr s ≠ "AUTHENTICATION" := hall Category.AUTHENTICATION
      have h3 : upStr s ≠ "CREDENTIALS" := hall Category.CREDENTIALS
      have h4 : upStr s ≠ "CONFIGURATION" := hall Category.CONFIGURATION
      have h5 : upStr s ≠ "PERMISSIONS" := hall Category.PERMISSIONS
      have h6 : upStr s ≠ "NETWORK" := hall Category.NETWORK
      simp only [normalizeCategory]
      rw [if_neg hs, if_neg h1, if_neg h2, if_neg h3, if_neg h4, if_neg h5, if_neg h6]
  · intro s r h
    have hs : s ≠ "" := by
      intro h0
      rw [h0] at h
      rw [show upStr "" = "" from rfl] at h
      exact riskLevelName_ne_empty r h.symm
    simp only [normalizeRiskLevel]
    rw [if_neg hs]
    exact hrlsm s r h
  · intro s hall
    by_cases hs : s = ""
    · simp only [normalizeRiskLevel]
      rw [if_pos hs]
    · simp only [normalizeRiskLevel]
      rw [if_neg hs]
      exact hrlsd s hall

/-- C9: the developer-view ordering returns the priority findings first
(every finding bearing the reserved id is among them), followed by the
remaining findings sorted by severity rank in the order CRITICAL, HIGH,
MEDIUM, LOW, INFO; the output is a permutation of the input. -/
theorem dev_view_ordering :
    ∀ findings : List Finding,
      sortFindingsForDevView findings
          = findings.filter isPriorityFinding
            ++ List.insertionSort devSortRel (findings.filter fun f => !isPriorityFinding f)
      ∧ (List.insertionSort devSortRel
          (findings.filter fun f => !isPriorityFinding f)).Perm
          (findings.filter fun f => !isPriorityFinding f)
      ∧ List.Sorted devSortRel
          (List.insertionSort devSortRel (findings.filter fun f => !isPriorityFinding f))
      ∧ (sortFindingsForDevView findings).Perm findings
      ∧ (∀ f ∈ findings, f.id = PRIORITY_FINDING_ID →
          f ∈ findings.filter isPriorityFinding) := by
  intro findings
  refine ⟨rfl, List.perm_insertionSort devSortRel _,
    List.sorted_insertionSort devSortRel _, ?_, ?_⟩
  · exact (List.Perm.append_left _ (List.perm_insertionSort devSortRel _)).trans
      (List.filter_append_perm isPriorityFinding findings)
  · intro f hf hid
    exact List.mem_filter.mpr ⟨hf, by simp [isPriorityFinding, hid]⟩

/-- C9 witness: the ordering applied to a concrete two-finding list is a
permutation of that list. -/
theorem dev_view_ordering_witness :
    (sortFindingsForDevView [sampleInstall, sampleNotConfigured]).Perm
      [sampleInstall, sampleNotConfigured] :=
  (dev_view_ordering [sampleInstall, sampleNotConfigured]).2.2.2.1

/-- C10: a finding is a priority advisory exactly when its id is the
reserved id or its lowercased title contains "not installed" or
"not configured"; consequently a finding whose title carries one of those
phrases is listed in the leading priority segment of both the developer
view and the friendly view, and everything after that segment is
non-priority. -/
theorem priority_finding_characterization :
    (∀ f : Finding,
      isPriorityFinding f = true
        ↔ (f.id = PRIORITY_FINDING_ID
            ∨ strIncludes (lowStr f.title) "not installed" = true
            ∨ strIncludes (lowStr f.title) "not configured" = true))
    ∧ (∀ (fs : List Finding) (f : Finding), f ∈ fs →
        (strIncludes (lowStr f.title) "not installed" = true
          ∨ strIncludes (lowStr f.title) "not configured" = true) →
        f ∈ fs.filter isPriorityFinding
        ∧ (∃ tail, sortFindingsForDevView fs = fs.filter isPriorityFinding ++ tail
            ∧ ∀ g ∈ tail, isPriorityFinding g = false)
        ∧ (∃ tail2, friendlyViewOrder fs = fs.filter isPriorityFinding ++ tail2
            ∧ ∀ g ∈ tail2, isPriorityFinding g = false)) := by
  constructor
  · intro f
    simp [isPriorityFinding, Bool.or_eq_true, beq_iff_eq, or_assoc]
  · intro fs f hf htitle
    have hpri : isPriorityFinding f = true := by
      rcases htitle with h | h <;> simp [isPriorityFinding, h]
    refine ⟨List.mem_filter.mpr ⟨hf, hpri⟩, ?_, ?_⟩
    · refine ⟨List.insertionSort devSortRel (fs.filter fun g => !isPriorityFinding g),
        rfl, ?_⟩
      intro g hg
      have hg2 : g ∈ fs.filter fun g => !isPriorityFinding g :=
        (List.perm_insertionSort devSortRel _).mem_iff.mp hg
      have := (List.mem_filter.mp hg2).2
      simpa using this
    · refine ⟨_, rfl, ?_⟩
      intro g hg
      obtain ⟨l, hl, hgl⟩ := List.mem_flatten.mp hg
      obtain ⟨sev, _, rfl⟩ := List.mem_map.mp hl
      have := (List.mem_filter.mp hgl).2
      simpa using this

/-- C10 witness: the concrete finding titled "Gateway service not
configured", with an ordinary id, is in the priority segment. -/
theorem priority_finding_characterization_witness :
    sampleNotConfigured ∈ List.filter isPriorityFinding [sampleNotConfigured] :=
  (priority_finding_characterization.2 [sampleNotConfigured] sampleNotConfigured
    (List.mem_singleton.mpr rfl) (Or.inr (by decide))).1

/-- C4 counterexample: the string containing a colon not followed by a
space, with the colon within the first 50 characters, is kept whole: no
instruction/command split happens and no code is produced. -/
theorem remediation_colon_no_space_cx :
    "a:b".data = ['a', ':', 'b']
    ∧ normalizeRemediationSteps [RawStep.str "a:b"]
        = [{ step := 1, instruction := "a:b", code := none, filePath := none }] := by
  decide

/-- C4 (amended): a plain string containing a colon immediately followed by
a space, the colon within the first 50 characters, is split at the first
such occurrence into an instruction and a command (trimmed, and omitted
when it trims to nothing); a string without such a colon-space is kept
whole; the two example strings of the claim behave as the claim says; and a
structured step object (in either file-path convention) normalizes to the
same canonical step. -/
theorem remediation_steps_normalization :
    (∀ (s : String) (i : Nat), colonSpaceIdx s.data = some i → i < 50 →
      normalizeRemediationSteps [RawStep.str s]
        = [{ step := 1
             instruction := String.mk (s.data.take i)
             code :=
               if 0 < (trimL (s.data.drop (i + 2))).length then
                 some (String.mk (trimL (s.data.drop (i + 2))))
               else none
             filePath := none }])
    ∧ (∀ s : String, colonSpaceIdx s.data = none →
        normalizeRemediationSteps [RawStep.str s]
          = [{ step := 1, instruction := s, code := none, filePath := none }])
    ∧ normalizeRemediationSteps [RawStep.str "Run install: npm install -g tool"]
        = [{ step := 1, instruction := "Run install",
             code := some "npm install -g tool", filePath := none }]
    ∧ normalizeRemediationSteps [RawStep.str "Restart the service"]
        = [{ step := 1, instruction := "Restart the service",
             code := none, filePath := none }]
    ∧ (∀ st : RemediationStep,
        normalizeRemediationSteps [stepToSnake st] = [st]
        ∧ normalizeRemediationSteps [stepToCamel st] = [st]) := by
  refine ⟨?_, ?_, by decide, by decide, ?_⟩
  · intro s i hidx hlt
    simp only [normalizeRemediationSteps, normStepsGo, normalizeOneStep, hidx, hlt, if_true]
  · intro s hidx
    simp only [normalizeRemediationSteps, normStepsGo, normalizeOneStep, hidx]
  · intro st
    obtain ⟨n, ins, cd, fp⟩ := st
    constructor <;>
      simp [normalizeRemediationSteps, normStepsGo, normalizeOneStep, stepToSnake, stepToCamel]

/-- C4 witness: the split rule applied at the concrete input. -/
theorem remediation_steps_normalization_witness :
    normalizeRemediationSteps [RawStep.str "Do this: x"]
      = [{ step := 1, instruction := "Do this", code := some "x", filePath := none }] :=
  (remediation_steps_normalization.1 "Do this: x" 7 (by decide) (by decide)).trans (by decide)

theorem countSeverity_sum (fs : List Finding) :
    countSeverity fs Severity.CRITICAL + countSeverity fs Severity.HIGH
      + countSeverity fs Severity.MEDIUM + countSeverity fs Severity.LOW
      + countSeverity fs Severity.INFO = fs.length := by
  induction fs with
  | nil => rfl
  | cons f t ih =>
    cases hf : f.severity <;>
      simp only [countSeverity, List.filter_cons, hf, List.length_cons,
        beq_self_eq_true, beq_iff_eq, reduceCtorEq, if_true, if_false,
        List.length_cons] at * <;>
      omega

/-- C2 counterexample: a raw result carrying one finding and no counts
normalizes to the five counts summing to 0 while the findings list has
length 1 — normalizeScanResult copies the counts it is given (defaulting
each to 0) instead of tallying the findings. -/
theorem severity_counts_passthrough_cx :
    (normalizeScanResult "2025-01-01T00:00:00Z" rawOneFinding).criticalCount
        + (normalizeScanResult "2025-01-01T00:00:00Z" rawOneFinding).highCount
        + (normalizeScanResult "2025-01-01T00:00:00Z" rawOneFinding).mediumCount
        + (normalizeScanResult "2025-01-01T00:00:00Z" rawOneFinding).lowCount
        + (normalizeScanResult "2025-01-01T00:00:00Z" rawOneFinding).infoCount = 0
    ∧ (normalizeScanResult "2025-01-01T00:00:00Z" rawOneFinding).findings.length = 1 := by
  decide

/-- C2 (amended): the five severity counts of a normalized ScanResult are
copied from the raw input (summary counts first, then camelCase counts,
else 0), not recomputed; whenever each copied count equals the tally of the
normalized findings at that severity — as a consistent producer makes them —
the counts sum to the number of findings. -/
theorem severity_counts_sum_when_consistent :
    ∀ (now : String) (raw : RawScanResult),
      (normalizeScanResult now raw).criticalCount
          = countSeverity (normalizeScanResult now raw).findings Severity.CRITICAL →
      (normalizeScanResult now raw).highCount
          = countSeverity (normalizeScanResult now raw).findings Severity.HIGH →
      (normalizeScanResult now raw).mediumCount
          = countSeverity (normalizeScanResult now raw).findings Severity.MEDIUM →
      (normalizeScanResult now raw).lowCount
          = countSeverity (normalizeScanResult now raw).findings Severity.LOW →
      (normalizeScanResult now raw).infoCount
          = countSeverity (normalizeScanResult now raw).findings Severity.INFO →
      (normalizeScanResult now raw).criticalCount
          + (normalizeScanResult now raw).highCount
          + (normalizeScanResult now raw).mediumCount
          + (normalizeScanResult now raw).lowCount
          + (normalizeScanResult now raw).infoCount
        = (normalizeScanResult now raw).findings.length := by
  intro now raw h1 h2 h3 h4 h5
  rw [h1, h2, h3, h4, h5]
  exact countSeverity_sum _

/-- C2 witness: at the all-absent raw result the copied counts (all 0) are
consistent and sum to the number of findings (0). -/
theorem severity_counts_sum_when_consistent_witness :
    (normalizeScanResult "t" rawEmpty).criticalCount
        + (normalizeScanResult "t" rawEmpty).highCount
        + (normalizeScanResult "t" rawEmpty).mediumCount
        + (normalizeScanResult "t" rawEmpty).lowCount
        + (normalizeScanResult "t" rawEmpty).infoCount
      = (normalizeScanResult "t" rawEmpty).findings.length :=
  severity_counts_sum_when_consistent "t" rawEmpty
    (by decide) (by decide) (by decide) (by decide) (by decide)

theorem normalizeSeverity_name (s : Severity) :
    normalizeSeverity (some (severityName s)) = s := by
  cases s <;> decide

theorem normalizeCategory_name (c : Category) :
    normalizeCategory (some (categoryName c)) = c := by
  cases c <;> decide

theorem normalizeRiskLevelString_name (r : RiskLevel) :
    normalizeRiskLevelString (riskLevelName r) = r := by
  cases r <;> decide

theorem normalizeOneStep_snake (i : Nat) (st : RemediationStep) :
    normalizeOneStep i (stepToSnake st) = st := by
  obtain ⟨n, ins, cd, fp⟩ := st
  simp [normalizeOneStep, stepToSnake]

theorem normalizeOneStep_camel (i : Nat) (st : RemediationStep) :
    normalizeOneStep i (stepToCamel st) = st := by
  obtain ⟨n, ins, cd, fp⟩ := st
  simp [normalizeOneStep, stepToCamel]

theorem normStepsGo_snake (l : List RemediationStep) (i : Nat) :
    normStepsGo i (l.map stepToSnake) = l := by
  induction l generalizing i with
  | nil => rfl
  | cons st t ih => simp [normStepsGo, normalizeOneStep_snake, ih]

theorem normStepsGo_camel (l : List RemediationStep) (i : Nat) :
    normStepsGo i (l.map stepToCamel) = l := by
  induction l generalizing i with
  | nil => rfl
  | cons st t ih => simp [normStepsGo, normalizeOneStep_camel, ih]

theorem normalizeFinding_snake (f : Finding) :
    normalizeFinding (findingToSnake f) = f := by
  obtain ⟨fid, ft, fd, fsev, fcat, fsc, floc, frem, fsteps, frefs⟩ := f
  simp [normalizeFinding, findingToSnake, normalizeSeverity_name, normalizeCategory_name,
    normalizeRemediationSteps, normStepsGo_snake]

theorem normalizeFinding_camel (f : Finding) :
    normalizeFinding (findingToCamel f) = f := by
  obtain ⟨fid, ft, fd, fsev, fcat, fsc, floc, frem, fsteps, frefs⟩ := f
  simp [normalizeFinding, findingToCamel, normalizeSeverity_name, normalizeCategory_name,
    normalizeRemediationSteps, normStepsGo_camel]

theorem normalizeScanResult_snake (now : String) (v : ScanResult) :
    normalizeScanResult now (toSnakeRaw v) = v := by
  obtain ⟨sid, ts, dur, fnds, si, score, rl, c1, c2, c3, c4, c5⟩ := v
  obtain ⟨p, pd, pv, un, ia, ips⟩ := si
  simp [normalizeScanResult, toSnakeRaw, sysToSnake, normalizeRiskLevelString_name,
    normalizeFinding_snake, List.map_map, Function.comp_def]

theorem normalizeScanResult_camel (now : String) (v : ScanResult) :
    normalizeScanResult now (toCamelRaw v) = v := by
  obtain ⟨sid, ts, dur, fnds, si, score, rl, c1, c2, c3, c4, c5⟩ := v
  obtain ⟨p, pd, pv, un, ia, ips⟩ := si
  simp [normalizeScanResult, toCamelRaw, normalizeRiskLevelString_name,
    normalizeFinding_camel, List.map_map, Function.comp_def]

/-- C3: normalizing the raw object written in the primary (snake_case)
convention and normalizing the equivalent raw object written in the
alternate (camelCase) convention yield identical canonical ScanResults —
both in fact recover the encoded result exactly. -/
theorem normalize_convention_roundtrip :
    ∀ (now : String) (v : ScanResult),
      normalizeScanResult now (toSnakeRaw v) = normalizeScanResult now (toCamelRaw v) := by
  intro now v
  rw [normalizeScanResult_snake, normalizeScanResult_camel]
